import Mathlib

/-!
# ISO configuration preparation (`common/iso_config.go`)

A shallow embedding of `ISOConfig` and of `(*ISOConfig).Prepare`, with the
properties of `Prepare` proved over it.

Go strings are modelled by `String` (valid UTF-8 text), the slice `ISOUrls` by
`List String` (a nil slice and an empty slice are both `[]`; the code only
tests `len`), and an `error` by its message.  The receiver is mutated in place
in Go; here `Prepare` returns the final receiver together with the two result
lists.

`strings.ToLower` belongs to the Go runtime.  It is modelled rune by rune the
way `unicode.ToLower` is written: the ASCII range is lowered by the explicit
`'A'..'Z'` test, every other rune is looked up in the runtime's case tables,
which are the parameter `caseTable`.
-/

namespace Common

/-- ISOConfig contains configuration for downloading ISO images. -/
structure ISOConfig where
  ISOChecksum : String
  ISOChecksumURL : String
  ISOChecksumType : String
  ISOUrls : List String
  TargetPath : String
  TargetExtension : String
  RawSingleISOUrl : String
  deriving DecidableEq, Repr

/-- What a call of `Prepare` leaves behind: the receiver after the call and the
two named results `warnings` and `errs`. -/
structure PrepareResult where
  config : ISOConfig
  warnings : List String
  errs : List String
  deriving DecidableEq, Repr

/-- Go `unicode.ToLower`: ASCII runes are lowered by the `'A' ≤ r ≤ 'Z'` test,
other runes by the case tables (`caseTable` stands for
`unicode.To(unicode.LowerCase, ·)`). -/
def unicodeToLower (caseTable : Char → Char) (r : Char) : Char :=
  if r.toNat ≤ 0x7F then
    if 'A'.toNat ≤ r.toNat ∧ r.toNat ≤ 'Z'.toNat then Char.ofNat (r.toNat + ('a'.toNat - 'A'.toNat))
    else r
  else caseTable r

/-- Go `strings.ToLower`: every rune of the string mapped through
`unicode.ToLower` (the ASCII fast path of the runtime computes the same
string). -/
def ToLower (caseTable : Char → Char) (s : String) : String :=
  ⟨s.data.map (unicodeToLower caseTable)⟩

/-- The message of the error returned when no source is configured. -/
def errNoSource : String := "One of iso_url or iso_urls must be specified"

/-- The message of the error returned when the checksum type is empty. -/
def errNoChecksumType : String := "The iso_checksum_type must be specified"

/-- The warning issued for a checksum type of `none`. -/
def warnNoChecksum : String :=
  "A checksum type of 'none' was specified. Since ISO files are so big,\n" ++
    "a checksum is highly recommended."

/-- First statement of `Prepare` (lines 23-27): a non-empty `RawSingleISOUrl`
is prepended to `ISOUrls` and cleared. -/
def mergeSingleURL (c : ISOConfig) : ISOConfig :=
  if c.RawSingleISOUrl ≠ "" then
    { c with ISOUrls := [c.RawSingleISOUrl] ++ c.ISOUrls, RawSingleISOUrl := "" }
  else c

/-- Lines 41-44 of `Prepare`: default and lowercase the target extension. -/
def normaliseExtension (caseTable : Char → Char) (c : ISOConfig) : ISOConfig :=
  let c := if c.TargetExtension = "" then { c with TargetExtension := "iso" } else c
  { c with TargetExtension := ToLower caseTable c.TargetExtension }

/-- The method `(*ISOConfig).Prepare` of `common/iso_config.go`, statement by
statement; the `interpolate.Context` argument is never read and is left
out. -/
def Prepare (caseTable : Char → Char) (c : ISOConfig) : PrepareResult :=
  let c := mergeSingleURL c
  if c.ISOUrls.length = 0 then
    { config := c, warnings := [], errs := [errNoSource] }
  else if c.ISOChecksumType = "" then
    { config := c, warnings := [], errs := [errNoChecksumType] }
  else
    let c := { c with ISOChecksumType := ToLower caseTable c.ISOChecksumType }
    let c := normaliseExtension caseTable c
    if c.ISOChecksumType = "none" then
      { config := c, warnings := [warnNoChecksum], errs := [] }
    else
      let c :=
        if c.ISOChecksumURL ≠ "" then
          { c with ISOChecksumType := "file", ISOChecksum := c.ISOChecksumURL }
        else c
      { config := c, warnings := [], errs := [] }

/-- A configuration names at least one source when the single URL or the URL
list is non-empty. -/
def hasSource (c : ISOConfig) : Prop :=
  c.RawSingleISOUrl ≠ "" ∨ c.ISOUrls ≠ []

instance (c : ISOConfig) : Decidable (hasSource c) := by
  unfold hasSource; infer_instance

/-- Case tables that leave every rune alone: with them `ToLower` is the ASCII
lowering, which is what the runtime computes on ASCII text. -/
def asciiOnly : Char → Char := fun r => r

/-- A configuration without any source; every other field is set. -/
def cfgNoSource : ISOConfig :=
  { ISOChecksum := "7c6e5dd1bacb3b48fdffba2ed096097eb172497d",
    ISOChecksumURL := "http://example.com/SHA1SUMS", ISOChecksumType := "SHA1",
    ISOUrls := [], TargetPath := "out/a.iso", TargetExtension := "TXT",
    RawSingleISOUrl := "" }

/-- A configuration with a source, no checksum type and a checksum URL. -/
def cfgUrlNoType : ISOConfig :=
  { ISOChecksum := "", ISOChecksumURL := "http://example.com/SHA256SUMS", ISOChecksumType := "",
    ISOUrls := ["http://example.com/a.iso"], TargetPath := "", TargetExtension := "",
    RawSingleISOUrl := "" }

/-- A configuration with a source, no checksum type and the checksum `none`. -/
def cfgNoneNoType : ISOConfig :=
  { ISOChecksum := "none", ISOChecksumURL := "", ISOChecksumType := "",
    ISOUrls := [], TargetPath := "", TargetExtension := "",
    RawSingleISOUrl := "http://example.com/a.iso" }

/-- A configuration with a source and a checksum type but neither a checksum
nor a checksum URL. -/
def cfgTypeOnly : ISOConfig :=
  { ISOChecksum := "", ISOChecksumURL := "", ISOChecksumType := "sha256",
    ISOUrls := ["http://example.com/a.iso"], TargetPath := "", TargetExtension := "",
    RawSingleISOUrl := "" }

/-- A fully populated configuration: single URL, URL list, mixed-case checksum
type and extension, inline checksum, no checksum URL. -/
def cfgInline : ISOConfig :=
  { ISOChecksum := "7C6E5DD1BACB3B48FDFFBA2ED096097EB172497D", ISOChecksumURL := "",
    ISOChecksumType := "SHA1", ISOUrls := ["http://mirror.example.com/a.iso"],
    TargetPath := "out/a.iso", TargetExtension := "ISO",
    RawSingleISOUrl := "http://example.com/a.iso" }

/-- The configuration `cfgInline` with the checksum type `NONE`. -/
def cfgNone : ISOConfig := { cfgInline with ISOChecksumType := "NONE" }

/-- The configuration `cfgInline` with a checksum URL added. -/
def cfgUrl : ISOConfig := { cfgInline with ISOChecksumURL := "http://example.com/SHA1SUMS" }

/-- A source location carrying the query annotation `checksum=<digest>`, built
the way the download test builds its URL (`location + "?checksum=" + digest`). -/
def withChecksumQuery (location digest : String) : String :=
  location ++ "?checksum=" ++ digest

/-- A configuration whose only source carries a `checksum=` annotation that
differs from the configured checksum. -/
def cfgConflict : ISOConfig :=
  { ISOChecksum := "da39a3ee5e6b4b0d3255bfef95601890afd80709", ISOChecksumURL := "",
    ISOChecksumType := "sha1",
    ISOUrls := [withChecksumQuery "http://example.com/a.iso"
      "7c6e5dd1bacb3b48fdffba2ed096097eb172497d"],
    TargetPath := "", TargetExtension := "", RawSingleISOUrl := "" }

/-- The configuration `cfgNone` with a checksum URL added. -/
def cfgNoneUrl : ISOConfig := { cfgNone with ISOChecksumURL := "http://example.com/SHA1SUMS" }

/-! ## Lowercasing -/

theorem ToLower_empty (caseTable : Char → Char) : ToLower caseTable "" = "" := rfl

theorem ToLower_iso (caseTable : Char → Char) : ToLower caseTable "iso" = "iso" := rfl

theorem ToLower_file (caseTable : Char → Char) : ToLower caseTable "file" = "file" := rfl

theorem ToLower_none (caseTable : Char → Char) : ToLower caseTable "none" = "none" := rfl

theorem ToLower_eq_empty (caseTable : Char → Char) (s : String) :
    ToLower caseTable s = "" ↔ s = "" := by
  constructor
  · intro h
    have hd := congrArg String.data h
    simp only [ToLower, List.map_eq_nil_iff] at hd
    exact String.ext hd
  · rintro rfl
    rfl

theorem ToLower_idem (caseTable : Char → Char)
    (hidem : ∀ r, unicodeToLower caseTable (unicodeToLower caseTable r) = unicodeToLower caseTable r)
    (s : String) : ToLower caseTable (ToLower caseTable s) = ToLower caseTable s := by
  apply String.ext
  simp only [ToLower, List.map_map]
  exact List.map_congr_left (fun r _ => hidem r)

theorem asciiOnly_small : ∀ n : Fin 128,
    unicodeToLower asciiOnly (unicodeToLower asciiOnly (Char.ofNat n.val))
      = unicodeToLower asciiOnly (Char.ofNat n.val) := by
  decide

theorem asciiOnly_idem (r : Char) :
    unicodeToLower asciiOnly (unicodeToLower asciiOnly r) = unicodeToLower asciiOnly r := by
  by_cases h : r.toNat ≤ 0x7F
  · have := asciiOnly_small ⟨r.toNat, by omega⟩
    simpa using this
  · simp [unicodeToLower, h, asciiOnly]

/-! ## The branches of `Prepare` -/

theorem mergeSingleURL_eq (c : ISOConfig) :
    mergeSingleURL c
      = { c with
          ISOUrls := if c.RawSingleISOUrl ≠ "" then c.RawSingleISOUrl :: c.ISOUrls else c.ISOUrls,
          RawSingleISOUrl := "" } := by
  unfold mergeSingleURL
  split_ifs with h
  · rfl
  · have h0 : c.RawSingleISOUrl = "" := not_not.mp h
    cases c
    simp_all

theorem normaliseExtension_eq (caseTable : Char → Char) (c : ISOConfig) :
    normaliseExtension caseTable c
      = { c with
          TargetExtension :=
            if c.TargetExtension = "" then "iso" else ToLower caseTable c.TargetExtension } := by
  unfold normaliseExtension
  split_ifs with h
  · simp [ToLower_iso]
  · rfl

theorem mergeSingleURL_urls_eq_nil (c : ISOConfig) :
    (mergeSingleURL c).ISOUrls = [] ↔ c.RawSingleISOUrl = "" ∧ c.ISOUrls = [] := by
  rw [mergeSingleURL_eq]
  by_cases h : c.RawSingleISOUrl = "" <;> simp [h]

theorem mergeSingleURL_urls_ne_nil (c : ISOConfig) (hs : hasSource c) :
    (mergeSingleURL c).ISOUrls ≠ [] := by
  rw [Ne, mergeSingleURL_urls_eq_nil]
  unfold hasSource at hs
  tauto

theorem Prepare_of_no_source (caseTable : Char → Char) (c : ISOConfig)
    (h : (mergeSingleURL c).ISOUrls = []) :
    Prepare caseTable c
      = { config := mergeSingleURL c, warnings := [], errs := [errNoSource] } := by
  simp [Prepare, h]

theorem Prepare_of_no_type (caseTable : Char → Char) (c : ISOConfig)
    (h : (mergeSingleURL c).ISOUrls ≠ []) (ht : c.ISOChecksumType = "") :
    Prepare caseTable c
      = { config := mergeSingleURL c, warnings := [], errs := [errNoChecksumType] } := by
  have ht2 : (mergeSingleURL c).ISOChecksumType = "" := by rw [mergeSingleURL_eq]; exact ht
  simp [Prepare, h, ht2]

theorem Prepare_of_none (caseTable : Char → Char) (c : ISOConfig)
    (h : (mergeSingleURL c).ISOUrls ≠ []) (ht : c.ISOChecksumType ≠ "")
    (hn : ToLower caseTable c.ISOChecksumType = "none") :
    Prepare caseTable c
      = { config := normaliseExtension caseTable
            { mergeSingleURL c with ISOChecksumType := "none" },
          warnings := [warnNoChecksum], errs := [] } := by
  have ht2 : (mergeSingleURL c).ISOChecksumType = c.ISOChecksumType := by
    rw [mergeSingleURL_eq]
  simp [Prepare, h, ht2, ht, hn, normaliseExtension_eq]

theorem Prepare_of_url (caseTable : Char → Char) (c : ISOConfig)
    (h : (mergeSingleURL c).ISOUrls ≠ []) (ht : c.ISOChecksumType ≠ "")
    (hn : ToLower caseTable c.ISOChecksumType ≠ "none") (hu : c.ISOChecksumURL ≠ "") :
    Prepare caseTable c
      = { config := { normaliseExtension caseTable (mergeSingleURL c) with
            ISOChecksumType := "file", ISOChecksum := c.ISOChecksumURL },
          warnings := [], errs := [] } := by
  have ht2 : (mergeSingleURL c).ISOChecksumType = c.ISOChecksumType := by
    rw [mergeSingleURL_eq]
  have hu2 : (mergeSingleURL c).ISOChecksumURL = c.ISOChecksumURL := by
    rw [mergeSingleURL_eq]
  simp [Prepare, h, ht2, hu2, ht, hn, hu, normaliseExtension_eq]

theorem Prepare_of_inline (caseTable : Char → Char) (c : ISOConfig)
    (h : (mergeSingleURL c).ISOUrls ≠ []) (ht : c.ISOChecksumType ≠ "")
    (hn : ToLower caseTable c.ISOChecksumType ≠ "none") (hu : c.ISOChecksumURL = "") :
    Prepare caseTable c
      = { config := { normaliseExtension caseTable (mergeSingleURL c) with
            ISOChecksumType := ToLower caseTable c.ISOChecksumType },
          warnings := [], errs := [] } := by
  have ht2 : (mergeSingleURL c).ISOChecksumType = c.ISOChecksumType := by
    rw [mergeSingleURL_eq]
  have hu2 : (mergeSingleURL c).ISOChecksumURL = c.ISOChecksumURL := by
    rw [mergeSingleURL_eq]
  simp [Prepare, h, ht2, hu2, ht, hn, hu, normaliseExtension_eq]

/-! ## Properties of `Prepare` -/

/-- C1: with an empty `RawSingleISOUrl` and an empty `ISOUrls`, `Prepare`
returns exactly the one error "One of iso_url or iso_urls must be specified",
no warning, and leaves every field of the configuration as it was. -/
theorem Prepare_no_source (caseTable : Char → Char) (c : ISOConfig)
    (hs : c.RawSingleISOUrl = "") (hu : c.ISOUrls = []) :
    (Prepare caseTable c).errs = ["One of iso_url or iso_urls must be specified"]
      ∧ (Prepare caseTable c).warnings = []
      ∧ (Prepare caseTable c).config = c := by
  have h : (mergeSingleURL c).ISOUrls = [] := (mergeSingleURL_urls_eq_nil c).mpr ⟨hs, hu⟩
  rw [Prepare_of_no_source caseTable c h]
  refine ⟨rfl, rfl, ?_⟩
  simp [mergeSingleURL, hs]

theorem Prepare_no_source_witness :
    (cfgNoSource.RawSingleISOUrl = "" ∧ cfgNoSource.ISOUrls = [])
      ∧ (Prepare asciiOnly cfgNoSource).errs = ["One of iso_url or iso_urls must be specified"]
      ∧ (Prepare asciiOnly cfgNoSource).warnings = []
      ∧ (Prepare asciiOnly cfgNoSource).config = cfgNoSource :=
  ⟨⟨rfl, rfl⟩, Prepare_no_source asciiOnly cfgNoSource rfl rfl⟩

/-- C2: `Prepare` returns a non-empty error list exactly when the configuration
has no source at all or its `ISOChecksumType` is empty; a non-empty error list
has exactly one element; and with a source and an empty `ISOChecksumType` the
error is "The iso_checksum_type must be specified". -/
theorem Prepare_errs_iff (caseTable : Char → Char) (c : ISOConfig) :
    ((Prepare caseTable c).errs ≠ []
        ↔ (c.RawSingleISOUrl = "" ∧ c.ISOUrls = []) ∨ c.ISOChecksumType = "")
      ∧ ((Prepare caseTable c).errs ≠ [] → (Prepare caseTable c).errs.length = 1)
      ∧ ((c.RawSingleISOUrl ≠ "" ∨ c.ISOUrls ≠ []) ∧ c.ISOChecksumType = ""
          → (Prepare caseTable c).errs = ["The iso_checksum_type must be specified"]) := by
  by_cases h : (mergeSingleURL c).ISOUrls = []
  · have hc := (mergeSingleURL_urls_eq_nil c).mp h
    rw [Prepare_of_no_source caseTable c h]
    refine ⟨by simp [hc], fun _ => rfl, ?_⟩
    rintro ⟨hs, -⟩
    rcases hs with hs | hs
    · exact absurd hc.1 hs
    · exact absurd hc.2 hs
  · have hc : ¬ (c.RawSingleISOUrl = "" ∧ c.ISOUrls = []) :=
      fun hc => h ((mergeSingleURL_urls_eq_nil c).mpr hc)
    by_cases ht : c.ISOChecksumType = ""
    · rw [Prepare_of_no_type caseTable c h ht]
      exact ⟨by simp [ht], fun _ => rfl, fun _ => rfl⟩
    · have he : (Prepare caseTable c).errs = [] := by
        by_cases hn : ToLower caseTable c.ISOChecksumType = "none"
        · rw [Prepare_of_none caseTable c h ht hn]
        · by_cases hu : c.ISOChecksumURL = ""
          · rw [Prepare_of_inline caseTable c h ht hn hu]
          · rw [Prepare_of_url caseTable c h ht hn hu]
      rw [he]
      refine ⟨by simp [hc, ht], fun hne => absurd rfl hne, ?_⟩
      rintro ⟨-, ht0⟩
      exact absurd ht0 ht

/-- C3, the claim refuted: two configurations with a source and an empty
`ISOChecksumType`, one with a checksum URL and one with the checksum `none`;
on both `Prepare` returns the error "The iso_checksum_type must be specified". -/
theorem Prepare_type_not_inferred :
    (hasSource cfgUrlNoType ∧ cfgUrlNoType.ISOChecksumType = ""
        ∧ cfgUrlNoType.ISOChecksumURL ≠ ""
        ∧ (Prepare asciiOnly cfgUrlNoType).errs = ["The iso_checksum_type must be specified"])
      ∧ (hasSource cfgNoneNoType ∧ cfgNoneNoType.ISOChecksumType = ""
        ∧ cfgNoneNoType.ISOChecksum = "none"
        ∧ (Prepare asciiOnly cfgNoneNoType).errs = ["The iso_checksum_type must be specified"]) := by
  decide

/-- C3 as amended: the checksum type is always required. With at least one
source, an empty `ISOChecksumType` gives the error "The iso_checksum_type must
be specified" whatever `ISOChecksumURL` and `ISOChecksum` are, and a non-empty
`ISOChecksumType` gives no error. -/
theorem Prepare_type_always_required (caseTable : Char → Char) (c : ISOConfig)
    (hs : hasSource c) :
    (c.ISOChecksumType = ""
        → (Prepare caseTable c).errs = ["The iso_checksum_type must be specified"])
      ∧ (c.ISOChecksumType ≠ "" → (Prepare caseTable c).errs = []) := by
  have h := mergeSingleURL_urls_ne_nil c hs
  refine ⟨fun ht => ?_, fun ht => ?_⟩
  · rw [Prepare_of_no_type caseTable c h ht]
    rfl
  · by_cases hn : ToLower caseTable c.ISOChecksumType = "none"
    · rw [Prepare_of_none caseTable c h ht hn]
    · by_cases hu : c.ISOChecksumURL = ""
      · rw [Prepare_of_inline caseTable c h ht hn hu]
      · rw [Prepare_of_url caseTable c h ht hn hu]

theorem Prepare_type_always_required_witness :
    hasSource cfgUrlNoType
      ∧ ((cfgUrlNoType.ISOChecksumType = ""
          → (Prepare asciiOnly cfgUrlNoType).errs = ["The iso_checksum_type must be specified"])
        ∧ (cfgUrlNoType.ISOChecksumType ≠ "" → (Prepare asciiOnly cfgUrlNoType).errs = [])) :=
  ⟨by decide, Prepare_type_always_required asciiOnly cfgUrlNoType (by decide)⟩

/-- C4: with at least one source and an `ISOChecksumType` that lowercases to
"none", `Prepare` returns exactly one warning and no error, and afterwards
`ISOChecksumType` is exactly "none". -/
theorem Prepare_none_warns (caseTable : Char → Char) (c : ISOConfig)
    (hs : hasSource c) (hn : ToLower caseTable c.ISOChecksumType = "none") :
    (Prepare caseTable c).warnings.length = 1
      ∧ (Prepare caseTable c).errs = []
      ∧ (Prepare caseTable c).config.ISOChecksumType = "none" := by
  have h := mergeSingleURL_urls_ne_nil c hs
  have ht : c.ISOChecksumType ≠ "" := by
    intro h0
    rw [h0, ToLower_empty] at hn
    exact absurd hn (by decide)
  rw [Prepare_of_none caseTable c h ht hn, normaliseExtension_eq]
  exact ⟨rfl, rfl, rfl⟩

theorem Prepare_none_warns_witness :
    (hasSource cfgNone ∧ ToLower asciiOnly cfgNone.ISOChecksumType = "none")
      ∧ (Prepare asciiOnly cfgNone).warnings.length = 1
      ∧ (Prepare asciiOnly cfgNone).errs = []
      ∧ (Prepare asciiOnly cfgNone).config.ISOChecksumType = "none" :=
  ⟨⟨by decide, by decide⟩, Prepare_none_warns asciiOnly cfgNone (by decide) (by decide)⟩

/-- C5: with at least one source, a non-empty `ISOChecksumType` that does not
lowercase to "none", and a non-empty `ISOChecksumURL`, `Prepare` returns no
error and no warning, and afterwards `ISOChecksumType` is "file" and
`ISOChecksum` equals `ISOChecksumURL`. -/
theorem Prepare_checksum_url (caseTable : Char → Char) (c : ISOConfig)
    (hs : hasSource c) (ht : c.ISOChecksumType ≠ "")
    (hn : ToLower caseTable c.ISOChecksumType ≠ "none") (hu : c.ISOChecksumURL ≠ "") :
    (Prepare caseTable c).errs = []
      ∧ (Prepare caseTable c).warnings = []
      ∧ (Prepare caseTable c).config.ISOChecksumType = "file"
      ∧ (Prepare caseTable c).config.ISOChecksum = c.ISOChecksumURL
      ∧ (Prepare caseTable c).config.ISOChecksumURL = c.ISOChecksumURL := by
  have h := mergeSingleURL_urls_ne_nil c hs
  rw [Prepare_of_url caseTable c h ht hn hu, normaliseExtension_eq, mergeSingleURL_eq]
  exact ⟨rfl, rfl, rfl, rfl, rfl⟩

theorem Prepare_checksum_url_witness :
    (hasSource cfgUrl ∧ cfgUrl.ISOChecksumType ≠ ""
        ∧ ToLower asciiOnly cfgUrl.ISOChecksumType ≠ "none" ∧ cfgUrl.ISOChecksumURL ≠ "")
      ∧ (Prepare asciiOnly cfgUrl).errs = []
      ∧ (Prepare asciiOnly cfgUrl).warnings = []
      ∧ (Prepare asciiOnly cfgUrl).config.ISOChecksumType = "file"
      ∧ (Prepare asciiOnly cfgUrl).config.ISOChecksum = cfgUrl.ISOChecksumURL
      ∧ (Prepare asciiOnly cfgUrl).config.ISOChecksumURL = cfgUrl.ISOChecksumURL :=
  ⟨⟨by decide, by decide, by decide, by decide⟩,
    Prepare_checksum_url asciiOnly cfgUrl (by decide) (by decide) (by decide) (by decide)⟩

/-- The receiver after `Prepare` is, on every path, a modification of the
receiver after the merge of the single URL that keeps `ISOUrls` and
`RawSingleISOUrl`. -/
theorem Prepare_config_sources (caseTable : Char → Char) (c : ISOConfig) :
    (Prepare caseTable c).config.ISOUrls = (mergeSingleURL c).ISOUrls
      ∧ (Prepare caseTable c).config.RawSingleISOUrl = (mergeSingleURL c).RawSingleISOUrl := by
  by_cases h : (mergeSingleURL c).ISOUrls = []
  · rw [Prepare_of_no_source caseTable c h]
    exact ⟨rfl, rfl⟩
  · by_cases ht : c.ISOChecksumType = ""
    · rw [Prepare_of_no_type caseTable c h ht]
      exact ⟨rfl, rfl⟩
    · by_cases hn : ToLower caseTable c.ISOChecksumType = "none"
      · rw [Prepare_of_none caseTable c h ht hn, normaliseExtension_eq]
        exact ⟨rfl, rfl⟩
      · by_cases hu : c.ISOChecksumURL = ""
        · rw [Prepare_of_inline caseTable c h ht hn hu, normaliseExtension_eq]
          exact ⟨rfl, rfl⟩
        · rw [Prepare_of_url caseTable c h ht hn hu, normaliseExtension_eq]
          exact ⟨rfl, rfl⟩

/-- C6: after `Prepare`, `RawSingleISOUrl` is empty and `ISOUrls` is the
original `RawSingleISOUrl` followed by the original `ISOUrls` when
`RawSingleISOUrl` was non-empty, and the original `ISOUrls` otherwise. -/
theorem Prepare_merges_single_url (caseTable : Char → Char) (c : ISOConfig) :
    (Prepare caseTable c).config.RawSingleISOUrl = ""
      ∧ (Prepare caseTable c).config.ISOUrls
          = if c.RawSingleISOUrl ≠ "" then [c.RawSingleISOUrl] ++ c.ISOUrls else c.ISOUrls := by
  obtain ⟨hurls, hraw⟩ := Prepare_config_sources caseTable c
  rw [hurls, hraw, mergeSingleURL_eq]
  exact ⟨rfl, rfl⟩

/-- The extension left by `normaliseExtension` is a fixed point of the
defaulting and lowercasing, provided lowering a rune twice is lowering it
once. -/
theorem normalised_extension_fixed (caseTable : Char → Char)
    (hidem : ∀ r, unicodeToLower caseTable (unicodeToLower caseTable r)
      = unicodeToLower caseTable r) (e : String) :
    (if (if e = "" then "iso" else ToLower caseTable e) = "" then "iso"
      else ToLower caseTable (if e = "" then "iso" else ToLower caseTable e))
      = (if e = "" then "iso" else ToLower caseTable e) := by
  by_cases he : e = ""
  · simp [he, ToLower_iso]
  · have hne : ToLower caseTable e ≠ "" := fun h => he ((ToLower_eq_empty caseTable e).mp h)
    simp [he, hne, ToLower_idem caseTable hidem]

/-- C7: `Prepare` is idempotent. Running it on the configuration left by a
first run leaves that configuration unchanged and returns the same warnings and
the same errors. The case tables of the runtime enter through one property:
lowering a rune twice gives the same rune as lowering it once. -/
theorem Prepare_idempotent (caseTable : Char → Char)
    (hidem : ∀ r, unicodeToLower caseTable (unicodeToLower caseTable r)
      = unicodeToLower caseTable r) (c : ISOConfig) :
    (Prepare caseTable (Prepare caseTable c).config).config = (Prepare caseTable c).config
      ∧ (Prepare caseTable (Prepare caseTable c).config).warnings = (Prepare caseTable c).warnings
      ∧ (Prepare caseTable (Prepare caseTable c).config).errs = (Prepare caseTable c).errs := by
  by_cases h : (mergeSingleURL c).ISOUrls = []
  · rw [Prepare_of_no_source caseTable c h]
    have h2 : (mergeSingleURL (mergeSingleURL c)).ISOUrls = [] := by
      rw [mergeSingleURL_eq] at h ⊢
      simpa [mergeSingleURL_eq] using h
    rw [Prepare_of_no_source caseTable _ h2]
    refine ⟨?_, rfl, rfl⟩
    simp [mergeSingleURL_eq]
  · have hm : mergeSingleURL (mergeSingleURL c) = mergeSingleURL c := by
      simp [mergeSingleURL_eq]
    by_cases ht : c.ISOChecksumType = ""
    · rw [Prepare_of_no_type caseTable c h ht]
      have ht2 : (mergeSingleURL c).ISOChecksumType = "" := by rw [mergeSingleURL_eq]; exact ht
      rw [Prepare_of_no_type caseTable _ (by rw [hm]; exact h) ht2, hm]
      exact ⟨rfl, rfl, rfl⟩
    · have hfix := normalised_extension_fixed caseTable hidem c.TargetExtension
      have hlt : ToLower caseTable c.ISOChecksumType ≠ "" :=
        fun h0 => ht ((ToLower_eq_empty caseTable _).mp h0)
      by_cases hn : ToLower caseTable c.ISOChecksumType = "none"
      · rw [Prepare_of_none caseTable c h ht hn]
        have h3 : (mergeSingleURL (normaliseExtension caseTable
            { mergeSingleURL c with ISOChecksumType := "none" })).ISOUrls ≠ [] := by
          rw [mergeSingleURL_eq] at h ⊢
          simpa [normaliseExtension_eq, mergeSingleURL_eq] using h
        rw [Prepare_of_none caseTable _ h3 (by simp [normaliseExtension_eq])
          (by simp [normaliseExtension_eq, ToLower_none])]
        refine ⟨?_, rfl, rfl⟩
        simp only [normaliseExtension_eq, mergeSingleURL_eq] at hfix ⊢
        simp [hfix]
      · by_cases hu : c.ISOChecksumURL = ""
        · rw [Prepare_of_inline caseTable c h ht hn hu]
          have h3 : (mergeSingleURL { normaliseExtension caseTable (mergeSingleURL c) with
              ISOChecksumType := ToLower caseTable c.ISOChecksumType }).ISOUrls ≠ [] := by
            rw [mergeSingleURL_eq] at h ⊢
            simpa [normaliseExtension_eq, mergeSingleURL_eq] using h
          rw [Prepare_of_inline caseTable _ h3 (by simpa using hlt)
            (by simpa [ToLower_idem caseTable hidem] using hn)
            (by simpa [normaliseExtension_eq, mergeSingleURL_eq] using hu)]
          refine ⟨?_, rfl, rfl⟩
          simp only [normaliseExtension_eq, mergeSingleURL_eq] at hfix ⊢
          simp [hfix, ToLower_idem caseTable hidem]
        · rw [Prepare_of_url caseTable c h ht hn hu]
          have h3 : (mergeSingleURL { normaliseExtension caseTable (mergeSingleURL c) with
              ISOChecksumType := "file", ISOChecksum := c.ISOChecksumURL }).ISOUrls ≠ [] := by
            rw [mergeSingleURL_eq] at h ⊢
            simpa [normaliseExtension_eq, mergeSingleURL_eq] using h
          rw [Prepare_of_url caseTable _ h3 (by simp) (by simp [ToLower_file])
            (by simpa [normaliseExtension_eq, mergeSingleURL_eq] using hu)]
          refine ⟨?_, rfl, rfl⟩
          simp only [normaliseExtension_eq, mergeSingleURL_eq] at hfix ⊢
          simp [hfix]

theorem Prepare_idempotent_witness :
    (∀ r, unicodeToLower asciiOnly (unicodeToLower asciiOnly r) = unicodeToLower asciiOnly r)
      ∧ (Prepare asciiOnly (Prepare asciiOnly cfgUrl).config).config
          = (Prepare asciiOnly cfgUrl).config
      ∧ (Prepare asciiOnly (Prepare asciiOnly cfgUrl).config).warnings
          = (Prepare asciiOnly cfgUrl).warnings
      ∧ (Prepare asciiOnly (Prepare asciiOnly cfgUrl).config).errs
          = (Prepare asciiOnly cfgUrl).errs :=
  ⟨asciiOnly_idem, Prepare_idempotent asciiOnly asciiOnly_idem cfgUrl⟩

/-- C8: with at least one source and a non-empty `ISOChecksumType`, after
`Prepare` the field `TargetExtension` is "iso" when it was empty and the
lowercase of its original value otherwise, on the "none" path, the checksum-URL
path and the inline path alike. -/
theorem Prepare_target_extension (caseTable : Char → Char) (c : ISOConfig)
    (hs : hasSource c) (ht : c.ISOChecksumType ≠ "") :
    (Prepare caseTable c).config.TargetExtension
      = if c.TargetExtension = "" then "iso" else ToLower caseTable c.TargetExtension := by
  have h := mergeSingleURL_urls_ne_nil c hs
  by_cases hn : ToLower caseTable c.ISOChecksumType = "none"
  · rw [Prepare_of_none caseTable c h ht hn, normaliseExtension_eq, mergeSingleURL_eq]
  · by_cases hu : c.ISOChecksumURL = ""
    · rw [Prepare_of_inline caseTable c h ht hn hu, normaliseExtension_eq, mergeSingleURL_eq]
    · rw [Prepare_of_url caseTable c h ht hn hu, normaliseExtension_eq, mergeSingleURL_eq]

theorem Prepare_target_extension_witness :
    (hasSource cfgNone ∧ cfgNone.ISOChecksumType ≠ "")
      ∧ (Prepare asciiOnly cfgNone).config.TargetExtension
          = if cfgNone.TargetExtension = "" then "iso"
            else ToLower asciiOnly cfgNone.TargetExtension :=
  ⟨⟨by decide, by decide⟩, Prepare_target_extension asciiOnly cfgNone (by decide) (by decide)⟩

/-- C9: with at least one source, a non-empty `ISOChecksumType` and an empty
`ISOChecksumURL`, after `Prepare` the field `ISOChecksumType` is the lowercase
of its original value. -/
theorem Prepare_lowercases_type (caseTable : Char → Char) (c : ISOConfig)
    (hs : hasSource c) (ht : c.ISOChecksumType ≠ "") (hu : c.ISOChecksumURL = "") :
    (Prepare caseTable c).config.ISOChecksumType = ToLower caseTable c.ISOChecksumType := by
  have h := mergeSingleURL_urls_ne_nil c hs
  by_cases hn : ToLower caseTable c.ISOChecksumType = "none"
  · rw [Prepare_of_none caseTable c h ht hn, normaliseExtension_eq, hn]
  · rw [Prepare_of_inline caseTable c h ht hn hu]

theorem Prepare_lowercases_type_witness :
    (hasSource cfgInline ∧ cfgInline.ISOChecksumType ≠ "" ∧ cfgInline.ISOChecksumURL = "")
      ∧ (Prepare asciiOnly cfgInline).config.ISOChecksumType = "sha1" :=
  ⟨⟨by decide, by decide, by decide⟩,
    Prepare_lowercases_type asciiOnly cfgInline (by decide) (by decide) (by decide)⟩

/-- C10, the claim refuted: on a configuration with a source, the checksum type
"sha256", no checksum and no checksum URL, `Prepare` returns no error, the
resulting `ISOChecksumType` is "sha256" (not "none"), and the resulting
`ISOChecksum` is empty. -/
theorem Prepare_checksum_may_be_empty :
    (Prepare asciiOnly cfgTypeOnly).errs = []
      ∧ (Prepare asciiOnly cfgTypeOnly).config.ISOChecksumType = "sha256"
      ∧ (Prepare asciiOnly cfgTypeOnly).config.ISOChecksumType ≠ "none"
      ∧ (Prepare asciiOnly cfgTypeOnly).config.ISOChecksum = "" := by
  decide

/-- C10 as amended: when `Prepare` returns no error and the resulting
`ISOChecksumType` is not "none", the resulting `ISOChecksum` is
`ISOChecksumURL` when that is non-empty and the original `ISOChecksum`
otherwise; so it is non-empty exactly when the original `ISOChecksumURL` or
the original `ISOChecksum` is non-empty. -/
theorem Prepare_checksum_value (caseTable : Char → Char) (c : ISOConfig)
    (he : (Prepare caseTable c).errs = [])
    (hn : (Prepare caseTable c).config.ISOChecksumType ≠ "none") :
    (Prepare caseTable c).config.ISOChecksum
        = (if c.ISOChecksumURL ≠ "" then c.ISOChecksumURL else c.ISOChecksum)
      ∧ ((Prepare caseTable c).config.ISOChecksum ≠ ""
          ↔ c.ISOChecksumURL ≠ "" ∨ c.ISOChecksum ≠ "") := by
  have key : (Prepare caseTable c).config.ISOChecksum
      = (if c.ISOChecksumURL ≠ "" then c.ISOChecksumURL else c.ISOChecksum) := by
    by_cases h : (mergeSingleURL c).ISOUrls = []
    · rw [Prepare_of_no_source caseTable c h] at he
      exact absurd he (by simp)
    · by_cases ht : c.ISOChecksumType = ""
      · rw [Prepare_of_no_type caseTable c h ht] at he
        exact absurd he (by simp)
      · by_cases hl : ToLower caseTable c.ISOChecksumType = "none"
        · rw [Prepare_of_none caseTable c h ht hl, normaliseExtension_eq] at hn
          exact absurd rfl hn
        · by_cases hu : c.ISOChecksumURL = ""
          · rw [Prepare_of_inline caseTable c h ht hl hu, normaliseExtension_eq,
              mergeSingleURL_eq]
            simp [hu]
          · rw [Prepare_of_url caseTable c h ht hl hu]
            simp [hu]
  refine ⟨key, ?_⟩
  rw [key]
  by_cases hu : c.ISOChecksumURL = "" <;> simp [hu]

theorem Prepare_checksum_value_witness :
    ((Prepare asciiOnly cfgInline).errs = []
        ∧ (Prepare asciiOnly cfgInline).config.ISOChecksumType ≠ "none")
      ∧ (Prepare asciiOnly cfgInline).config.ISOChecksum
          = (if cfgInline.ISOChecksumURL ≠ "" then cfgInline.ISOChecksumURL
            else cfgInline.ISOChecksum)
      ∧ ((Prepare asciiOnly cfgInline).config.ISOChecksum ≠ ""
          ↔ cfgInline.ISOChecksumURL ≠ "" ∨ cfgInline.ISOChecksum ≠ "") :=
  ⟨⟨by decide, by decide⟩, Prepare_checksum_value asciiOnly cfgInline (by decide) (by decide)⟩

/-- C11, the claim refuted: on a configuration with a source, the checksum
type "NONE" and a configured checksum, `Prepare` returns no error, the
resulting `ISOChecksumType` is "none", and the resulting `ISOChecksum` is still
the configured, non-empty value. -/
theorem Prepare_none_keeps_checksum_example :
    (Prepare asciiOnly cfgNone).errs = []
      ∧ (Prepare asciiOnly cfgNone).config.ISOChecksumType = "none"
      ∧ (Prepare asciiOnly cfgNone).config.ISOChecksum
          = "7C6E5DD1BACB3B48FDFFBA2ED096097EB172497D"
      ∧ (Prepare asciiOnly cfgNone).config.ISOChecksum ≠ "" := by
  decide

/-- C11 as amended: when `Prepare` returns no error and the resulting
`ISOChecksumType` is "none", the resulting `ISOChecksum` is the original
`ISOChecksum`, left as configured; it is empty exactly when it was configured
empty. -/
theorem Prepare_none_checksum_unchanged (caseTable : Char → Char) (c : ISOConfig)
    (he : (Prepare caseTable c).errs = [])
    (hn : (Prepare caseTable c).config.ISOChecksumType = "none") :
    (Prepare caseTable c).config.ISOChecksum = c.ISOChecksum
      ∧ ((Prepare caseTable c).config.ISOChecksum = "" ↔ c.ISOChecksum = "") := by
  have key : (Prepare caseTable c).config.ISOChecksum = c.ISOChecksum := by
    by_cases h : (mergeSingleURL c).ISOUrls = []
    · rw [Prepare_of_no_source caseTable c h] at he
      exact absurd he (by simp)
    · by_cases ht : c.ISOChecksumType = ""
      · rw [Prepare_of_no_type caseTable c h ht] at he
        exact absurd he (by simp)
      · by_cases hl : ToLower caseTable c.ISOChecksumType = "none"
        · rw [Prepare_of_none caseTable c h ht hl, normaliseExtension_eq, mergeSingleURL_eq]
        · by_cases hu : c.ISOChecksumURL = ""
          · rw [Prepare_of_inline caseTable c h ht hl hu] at hn
            exact absurd hn hl
          · rw [Prepare_of_url caseTable c h ht hl hu] at hn
            have hf : ("file" : String) ≠ "none" := by decide
            exact absurd hn hf
  exact ⟨key, by rw [key]⟩

theorem Prepare_none_checksum_unchanged_witness :
    ((Prepare asciiOnly cfgNone).errs = []
        ∧ (Prepare asciiOnly cfgNone).config.ISOChecksumType = "none")
      ∧ (Prepare asciiOnly cfgNone).config.ISOChecksum = cfgNone.ISOChecksum
      ∧ ((Prepare asciiOnly cfgNone).config.ISOChecksum = "" ↔ cfgNone.ISOChecksum = "") :=
  ⟨⟨by decide, by decide⟩,
    Prepare_none_checksum_unchanged asciiOnly cfgNone (by decide) (by decide)⟩

theorem withChecksumQuery_ne_empty (location digest : String) :
    withChecksumQuery location digest ≠ "" := by
  intro h
  have hl := congrArg String.length h
  simp [withChecksumQuery, String.length_append] at hl
  have h10 : "?checksum=".length = 10 := by decide
  omega

/-- C12, the claim refuted: the only source of `cfgConflict` carries the
annotation `checksum=7c6e…`, the configured `ISOChecksum` is a different,
non-empty digest, and `Prepare` returns no error and no warning. -/
theorem Prepare_ignores_conflict_example :
    withChecksumQuery "http://example.com/a.iso" "7c6e5dd1bacb3b48fdffba2ed096097eb172497d"
        ∈ cfgConflict.ISOUrls
      ∧ cfgConflict.ISOChecksum ≠ "7c6e5dd1bacb3b48fdffba2ed096097eb172497d"
      ∧ cfgConflict.ISOChecksum ≠ ""
      ∧ (Prepare asciiOnly cfgConflict).errs = []
      ∧ (Prepare asciiOnly cfgConflict).warnings = [] := by
  decide

/-- The errors of `Prepare` on a configuration with a source depend on the
checksum type alone. -/
theorem Prepare_errs_of_source (caseTable : Char → Char) (c : ISOConfig)
    (h : (mergeSingleURL c).ISOUrls ≠ []) :
    (Prepare caseTable c).errs
      = if c.ISOChecksumType = "" then ["The iso_checksum_type must be specified"] else [] := by
  by_cases ht : c.ISOChecksumType = ""
  · rw [Prepare_of_no_type caseTable c h ht, if_pos ht]
    rfl
  · rw [if_neg ht]
    by_cases hn : ToLower caseTable c.ISOChecksumType = "none"
    · rw [Prepare_of_none caseTable c h ht hn]
    · by_cases hu : c.ISOChecksumURL = ""
      · rw [Prepare_of_inline caseTable c h ht hn hu]
      · rw [Prepare_of_url caseTable c h ht hn hu]

/-- C12 as amended: `Prepare` does not compare a `checksum=` annotation with the
configured checksum. When a source location (the single URL or an element of
`ISOUrls`) carries `checksum=<digest>` and the digest differs from a non-empty
`ISOChecksum`, `Prepare` returns no error if `ISOChecksumType` is non-empty and
only "The iso_checksum_type must be specified" if it is empty, and the
annotated location is kept verbatim in `ISOUrls`. -/
theorem Prepare_ignores_conflict (caseTable : Char → Char) (c : ISOConfig)
    (location digest : String)
    (hsrc : withChecksumQuery location digest = c.RawSingleISOUrl
      ∨ withChecksumQuery location digest ∈ c.ISOUrls)
    (_hdiff : digest ≠ c.ISOChecksum) (_hset : c.ISOChecksum ≠ "") :
    (Prepare caseTable c).errs
        = (if c.ISOChecksumType = "" then ["The iso_checksum_type must be specified"] else [])
      ∧ withChecksumQuery location digest ∈ (Prepare caseTable c).config.ISOUrls := by
  have hmem : withChecksumQuery location digest ∈ (mergeSingleURL c).ISOUrls := by
    rw [mergeSingleURL_eq]
    rcases hsrc with hraw | hin
    · have hne : c.RawSingleISOUrl ≠ "" := hraw ▸ withChecksumQuery_ne_empty location digest
      simp [hne, hraw]
    · by_cases hne : c.RawSingleISOUrl = "" <;> simp [hne, hin]
  have h : (mergeSingleURL c).ISOUrls ≠ [] := List.ne_nil_of_mem hmem
  refine ⟨Prepare_errs_of_source caseTable c h, ?_⟩
  rw [(Prepare_config_sources caseTable c).1]
  exact hmem

theorem Prepare_ignores_conflict_witness :
    ((withChecksumQuery "http://example.com/a.iso" "7c6e5dd1bacb3b48fdffba2ed096097eb172497d"
          = cfgConflict.RawSingleISOUrl
        ∨ withChecksumQuery "http://example.com/a.iso" "7c6e5dd1bacb3b48fdffba2ed096097eb172497d"
          ∈ cfgConflict.ISOUrls)
      ∧ "7c6e5dd1bacb3b48fdffba2ed096097eb172497d" ≠ cfgConflict.ISOChecksum
      ∧ cfgConflict.ISOChecksum ≠ "")
    ∧ (Prepare asciiOnly cfgConflict).errs
        = (if cfgConflict.ISOChecksumType = "" then ["The iso_checksum_type must be specified"]
          else [])
    ∧ withChecksumQuery "http://example.com/a.iso" "7c6e5dd1bacb3b48fdffba2ed096097eb172497d"
        ∈ (Prepare asciiOnly cfgConflict).config.ISOUrls :=
  ⟨⟨by decide, by decide, by decide⟩,
    Prepare_ignores_conflict asciiOnly cfgConflict "http://example.com/a.iso"
      "7c6e5dd1bacb3b48fdffba2ed096097eb172497d" (by decide) (by decide) (by decide)⟩

/-- C14: `Prepare` never returns both a warning and an error, returns at most
one warning, and returns a warning only if the configuration has at least one
source and its `ISOChecksumType` is non-empty and lowercases to "none". -/
theorem Prepare_warnings (caseTable : Char → Char) (c : ISOConfig) :
    ((Prepare caseTable c).warnings = [] ∨ (Prepare caseTable c).errs = [])
      ∧ (Prepare caseTable c).warnings.length ≤ 1
      ∧ ((Prepare caseTable c).warnings ≠ []
          → (c.RawSingleISOUrl ≠ "" ∨ c.ISOUrls ≠ []) ∧ c.ISOChecksumType ≠ ""
            ∧ ToLower caseTable c.ISOChecksumType = "none") := by
  by_cases h : (mergeSingleURL c).ISOUrls = []
  · rw [Prepare_of_no_source caseTable c h]
    exact ⟨Or.inl rfl, Nat.zero_le _, fun hw => absurd rfl hw⟩
  · by_cases ht : c.ISOChecksumType = ""
    · rw [Prepare_of_no_type caseTable c h ht]
      exact ⟨Or.inl rfl, Nat.zero_le _, fun hw => absurd rfl hw⟩
    · by_cases hn : ToLower caseTable c.ISOChecksumType = "none"
      · rw [Prepare_of_none caseTable c h ht hn]
        refine ⟨Or.inr rfl, Nat.le_refl _, fun _ => ⟨?_, ht, hn⟩⟩
        by_contra hs
        apply h
        rw [mergeSingleURL_urls_eq_nil]
        constructor
        · by_contra h1
          exact hs (Or.inl h1)
        · by_contra h2
          exact hs (Or.inr h2)
      · by_cases hu : c.ISOChecksumURL = ""
        · rw [Prepare_of_inline caseTable c h ht hn hu]
          exact ⟨Or.inl rfl, Nat.zero_le _, fun hw => absurd rfl hw⟩
        · rw [Prepare_of_url caseTable c h ht hn hu]
          exact ⟨Or.inl rfl, Nat.zero_le _, fun hw => absurd rfl hw⟩

theorem str_iso_ne_empty : ("iso" : String) ≠ "" := by decide

theorem str_none_ne_empty : ("none" : String) ≠ "" := by decide

theorem str_file_ne_empty : ("file" : String) ≠ "" := by decide

theorem str_none_ne_file : ("none" : String) ≠ "file" := by decide

/-- C15: when `Prepare` returns no error the resulting configuration is
normalised: `ISOUrls` is non-empty, `RawSingleISOUrl` is empty,
`ISOChecksumType` is non-empty and equal to its own lowercase, and
`TargetExtension` is non-empty and equal to its own lowercase. The case tables
of the runtime enter through one property: lowering a rune twice gives the same
rune as lowering it once. -/
theorem Prepare_normalised (caseTable : Char → Char)
    (hidem : ∀ r, unicodeToLower caseTable (unicodeToLower caseTable r)
      = unicodeToLower caseTable r) (c : ISOConfig)
    (he : (Prepare caseTable c).errs = []) :
    (Prepare caseTable c).config.ISOUrls ≠ []
      ∧ (Prepare caseTable c).config.RawSingleISOUrl = ""
      ∧ (Prepare caseTable c).config.ISOChecksumType ≠ ""
      ∧ ToLower caseTable (Prepare caseTable c).config.ISOChecksumType
          = (Prepare caseTable c).config.ISOChecksumType
      ∧ (Prepare caseTable c).config.TargetExtension ≠ ""
      ∧ ToLower caseTable (Prepare caseTable c).config.TargetExtension
          = (Prepare caseTable c).config.TargetExtension := by
  obtain ⟨hurls, hraw⟩ := Prepare_config_sources caseTable c
  by_cases h : (mergeSingleURL c).ISOUrls = []
  · rw [Prepare_of_no_source caseTable c h] at he
    exact absurd he (by simp)
  · by_cases ht : c.ISOChecksumType = ""
    · rw [Prepare_of_no_type caseTable c h ht] at he
      exact absurd he (by simp)
    · have hlt : ToLower caseTable c.ISOChecksumType ≠ "" :=
        fun h0 => ht ((ToLower_eq_empty caseTable _).mp h0)
      have hext : (if c.TargetExtension = "" then "iso"
            else ToLower caseTable c.TargetExtension) ≠ ""
          ∧ ToLower caseTable (if c.TargetExtension = "" then "iso"
              else ToLower caseTable c.TargetExtension)
            = (if c.TargetExtension = "" then "iso"
              else ToLower caseTable c.TargetExtension) := by
        by_cases hx : c.TargetExtension = ""
        · rw [if_pos hx]
          exact ⟨str_iso_ne_empty, ToLower_iso caseTable⟩
        · rw [if_neg hx]
          exact ⟨fun h0 => hx ((ToLower_eq_empty caseTable _).mp h0),
            ToLower_idem caseTable hidem _⟩
      refine ⟨by rw [hurls]; exact h, by rw [hraw, mergeSingleURL_eq], ?_⟩
      by_cases hn : ToLower caseTable c.ISOChecksumType = "none"
      · rw [Prepare_of_none caseTable c h ht hn, normaliseExtension_eq, mergeSingleURL_eq]
        exact ⟨str_none_ne_empty, ToLower_none caseTable, hext.1, hext.2⟩
      · by_cases hu : c.ISOChecksumURL = ""
        · rw [Prepare_of_inline caseTable c h ht hn hu, normaliseExtension_eq,
            mergeSingleURL_eq]
          exact ⟨hlt, ToLower_idem caseTable hidem _, hext.1, hext.2⟩
        · rw [Prepare_of_url caseTable c h ht hn hu, normaliseExtension_eq, mergeSingleURL_eq]
          exact ⟨str_file_ne_empty, ToLower_file caseTable, hext.1, hext.2⟩

theorem Prepare_normalised_witness :
    ((∀ r, unicodeToLower asciiOnly (unicodeToLower asciiOnly r) = unicodeToLower asciiOnly r)
      ∧ (Prepare asciiOnly cfgInline).errs = [])
    ∧ (Prepare asciiOnly cfgInline).config.ISOUrls ≠ []
    ∧ (Prepare asciiOnly cfgInline).config.RawSingleISOUrl = ""
    ∧ (Prepare asciiOnly cfgInline).config.ISOChecksumType ≠ ""
    ∧ ToLower asciiOnly (Prepare asciiOnly cfgInline).config.ISOChecksumType
        = (Prepare asciiOnly cfgInline).config.ISOChecksumType
    ∧ (Prepare asciiOnly cfgInline).config.TargetExtension ≠ ""
    ∧ ToLower asciiOnly (Prepare asciiOnly cfgInline).config.TargetExtension
        = (Prepare asciiOnly cfgInline).config.TargetExtension :=
  ⟨⟨asciiOnly_idem, by decide⟩, Prepare_normalised asciiOnly asciiOnly_idem cfgInline (by decide)⟩

/-- C16: a checksum type of "none" takes precedence over a checksum URL. With
at least one source, an `ISOChecksumType` lowercasing to "none" and a non-empty
`ISOChecksumURL`, `Prepare` leaves `ISOChecksum` unchanged and leaves
`ISOChecksumType` as "none", not "file". -/
theorem Prepare_none_before_url (caseTable : Char → Char) (c : ISOConfig)
    (hs : hasSource c) (hn : ToLower caseTable c.ISOChecksumType = "none")
    (_hu : c.ISOChecksumURL ≠ "") :
    (Prepare caseTable c).config.ISOChecksum = c.ISOChecksum
      ∧ (Prepare caseTable c).config.ISOChecksumType = "none"
      ∧ (Prepare caseTable c).config.ISOChecksumType ≠ "file" := by
  have h := mergeSingleURL_urls_ne_nil c hs
  have ht : c.ISOChecksumType ≠ "" := by
    intro h0
    rw [h0, ToLower_empty] at hn
    exact absurd hn (by decide)
  rw [Prepare_of_none caseTable c h ht hn, normaliseExtension_eq, mergeSingleURL_eq]
  exact ⟨rfl, rfl, str_none_ne_file⟩

theorem Prepare_none_before_url_witness :
    (hasSource cfgNoneUrl ∧ ToLower asciiOnly cfgNoneUrl.ISOChecksumType = "none"
        ∧ cfgNoneUrl.ISOChecksumURL ≠ "")
      ∧ (Prepare asciiOnly cfgNoneUrl).config.ISOChecksum = cfgNoneUrl.ISOChecksum
      ∧ (Prepare asciiOnly cfgNoneUrl).config.ISOChecksumType = "none"
      ∧ (Prepare asciiOnly cfgNoneUrl).config.ISOChecksumType ≠ "file" :=
  ⟨⟨by decide, by decide, by decide⟩,
    Prepare_none_before_url asciiOnly cfgNoneUrl (by decide) (by decide) (by decide)⟩

/-- C17: `Prepare` never changes `ISOChecksumURL` or `TargetPath`, and it leaves
`ISOChecksum` unchanged whenever `ISOChecksumURL` is empty. -/
theorem Prepare_frame (caseTable : Char → Char) (c : ISOConfig) :
    (Prepare caseTable c).config.ISOChecksumURL = c.ISOChecksumURL
      ∧ (Prepare caseTable c).config.TargetPath = c.TargetPath
      ∧ (c.ISOChecksumURL = "" → (Prepare caseTable c).config.ISOChecksum = c.ISOChecksum) := by
  by_cases h : (mergeSingleURL c).ISOUrls = []
  · rw [Prepare_of_no_source caseTable c h, mergeSingleURL_eq]
    exact ⟨rfl, rfl, fun _ => rfl⟩
  · by_cases ht : c.ISOChecksumType = ""
    · rw [Prepare_of_no_type caseTable c h ht, mergeSingleURL_eq]
      exact ⟨rfl, rfl, fun _ => rfl⟩
    · by_cases hn : ToLower caseTable c.ISOChecksumType = "none"
      · rw [Prepare_of_none caseTable c h ht hn, normaliseExtension_eq, mergeSingleURL_eq]
        exact ⟨rfl, rfl, fun _ => rfl⟩
      · by_cases hu : c.ISOChecksumURL = ""
        · rw [Prepare_of_inline caseTable c h ht hn hu, normaliseExtension_eq,
            mergeSingleURL_eq]
          exact ⟨rfl, rfl, fun _ => rfl⟩
        · rw [Prepare_of_url caseTable c h ht hn hu, normaliseExtension_eq, mergeSingleURL_eq]
          exact ⟨rfl, rfl, fun h0 => absurd h0 hu⟩

/-- C18: with at least one source and an empty `ISOChecksumType`, `Prepare`
fails and changes no field other than `ISOUrls` and `RawSingleISOUrl`:
`ISOChecksum`, `ISOChecksumType`, `ISOChecksumURL`, `TargetPath` and
`TargetExtension` keep their values (an empty `TargetExtension` stays empty),
while the single URL has been merged into `ISOUrls`. -/
theorem Prepare_no_type_frame (caseTable : Char → Char) (c : ISOConfig)
    (hs : hasSource c) (ht : c.ISOChecksumType = "") :
    (Prepare caseTable c).errs ≠ []
      ∧ (Prepare caseTable c).config.ISOChecksum = c.ISOChecksum
      ∧ (Prepare caseTable c).config.ISOChecksumType = c.ISOChecksumType
      ∧ (Prepare caseTable c).config.ISOChecksumURL = c.ISOChecksumURL
      ∧ (Prepare caseTable c).config.TargetPath = c.TargetPath
      ∧ (Prepare caseTable c).config.TargetExtension = c.TargetExtension
      ∧ (Prepare caseTable c).config.RawSingleISOUrl = ""
      ∧ (Prepare caseTable c).config.ISOUrls
          = (if c.RawSingleISOUrl ≠ "" then [c.RawSingleISOUrl] ++ c.ISOUrls else c.ISOUrls) := by
  have h := mergeSingleURL_urls_ne_nil c hs
  rw [Prepare_of_no_type caseTable c h ht, mergeSingleURL_eq]
  exact ⟨by simp, rfl, rfl, rfl, rfl, rfl, rfl, rfl⟩

theorem Prepare_no_type_frame_witness :
    (hasSource cfgNoneNoType ∧ cfgNoneNoType.ISOChecksumType = "")
      ∧ (Prepare asciiOnly cfgNoneNoType).errs ≠ []
      ∧ (Prepare asciiOnly cfgNoneNoType).config.ISOChecksum = cfgNoneNoType.ISOChecksum
      ∧ (Prepare asciiOnly cfgNoneNoType).config.ISOChecksumType = cfgNoneNoType.ISOChecksumType
      ∧ (Prepare asciiOnly cfgNoneNoType).config.ISOChecksumURL = cfgNoneNoType.ISOChecksumURL
      ∧ (Prepare asciiOnly cfgNoneNoType).config.TargetPath = cfgNoneNoType.TargetPath
      ∧ (Prepare asciiOnly cfgNoneNoType).config.TargetExtension = cfgNoneNoType.TargetExtension
      ∧ (Prepare asciiOnly cfgNoneNoType).config.RawSingleISOUrl = ""
      ∧ (Prepare asciiOnly cfgNoneNoType).config.ISOUrls
          = (if cfgNoneNoType.RawSingleISOUrl ≠ ""
              then [cfgNoneNoType.RawSingleISOUrl] ++ cfgNoneNoType.ISOUrls
              else cfgNoneNoType.ISOUrls) :=
  ⟨⟨by decide, by decide⟩, Prepare_no_type_frame asciiOnly cfgNoneNoType (by decide) (by decide)⟩

end Common
